import Mathlib

/-!
Shallow embedding of the review-thread inventory printer
(src/.agent/scripts/pr.py), a Python script that reads a JSON export of
pull-request review threads and prints an open-threads table.

JSON values are modelled by an inductive type; Python dict/list access,
truthiness, string slicing and format-string padding are modelled by
explicit functions.  Fatal conditions (KeyError, IndexError, TypeError,
AttributeError) are modelled by Option, with none meaning an unhandled
exception that terminates the run.
-/

namespace PrPy

/-- A JSON value as decoded by json.load.  Numbers are modelled as
integers; the claims only exercise integer line numbers. -/
inductive Json where
  | null : Json
  | bool : Bool → Json
  | num : Int → Json
  | str : String → Json
  | arr : List Json → Json
  | obj : List (String × Json) → Json

/-- Python truthiness of a decoded JSON value, as used by the condition
of the skip test. -/
def truthy : Json → Bool
  | Json.null => false
  | Json.bool b => b
  | Json.num n => n != 0
  | Json.str s => s != ""
  | Json.arr xs => !xs.isEmpty
  | Json.obj fs => !fs.isEmpty

/-- Whether a value is a JSON object, i.e. a Python dict after decoding. -/
def isObj : Json → Bool
  | Json.obj _ => true
  | _ => false

/-- Python dict.get with a default: on a dict, return the value bound to
the key or the default; on any other value the attribute access .get
raises, a fatal condition (none). -/
def pyGet (v : Json) (k : String) (d : Json) : Option Json :=
  match v with
  | Json.obj fs => some ((fs.lookup k).getD d)
  | _ => none

/-- Python subscription v[k] with a string key: dict lookup, raising
KeyError when absent and TypeError on non-dicts; both fatal (none). -/
def pyIndexStr (v : Json) (k : String) : Option Json :=
  match v with
  | Json.obj fs => fs.lookup k
  | _ => none

/-- Python subscription v[i] with a non-negative integer index: list
indexing (IndexError out of range), string indexing (one-character
string), fatal on anything else. -/
def pyIndexNat (v : Json) (i : Nat) : Option Json :=
  match v with
  | Json.arr xs => xs.get? i
  | Json.str s => (s.data.get? i).map (fun c => Json.str (String.mk [c]))
  | _ => none

/-- Python iteration for the for-loop: a list yields its elements, a
dict its keys, a string its one-character substrings; other values are
not iterable (TypeError, fatal). -/
def pyIter : Json → Option (List Json)
  | Json.arr xs => some xs
  | Json.obj fs => some (fs.map (fun p => Json.str p.1))
  | Json.str s => some (s.data.map (fun c => Json.str (String.mk [c])))
  | _ => none

/-- Python method .replace on a value that must be a string; calling a
string method on a non-string raises AttributeError (fatal). -/
def asStr : Json → Option String
  | Json.str s => some s
  | _ => none

/-- Replace a newline character by a space, keep every other character. -/
def replChar (c : Char) : Char := if c = '\n' then ' ' else c

/-- Python body.replace applied to the newline character: every newline
becomes a single space. -/
def replaceNl (s : String) : String := String.mk (s.data.map replChar)

/-- Python slice s[:n]: the first n characters of s (all of s when it is
shorter). -/
def pyTake (s : String) (n : Nat) : String := String.mk (s.data.take n)

/-- The transformation the script applies to a comment body before
printing: newlines to spaces, then truncation to 50 characters. -/
def pyComment (s : String) : String := pyTake (replaceNl s) 50

/-- Python format spec <w on a string: left-justify with spaces to a
minimum width of w characters. -/
def ljust (s : String) (w : Nat) : String :=
  s ++ String.mk (List.replicate (w - s.length) ' ')

/-- Python format(v, <w) inside the row f-string: strings are
left-justified, integers are rendered then left-justified, booleans
format as integers; None, lists and dicts raise TypeError (fatal). -/
def pyFormat (v : Json) (w : Nat) : Option String :=
  match v with
  | Json.str s => some (ljust s w)
  | Json.num n => some (ljust (toString n) w)
  | Json.bool b => some (ljust (if b then "1" else "0") w)
  | _ => none

/-- One printed row: the four padded columns and the comment text,
joined by single spaces, with the literal status label OPEN. -/
def mkRow (tid path line body : String) : String :=
  tid ++ " " ++ path ++ " " ++ line ++ " " ++ ljust "OPEN" 10 ++ " " ++ body

/-- The header line printed by the script. -/
def header : String :=
  ljust "THREAD ID" 20 ++ " " ++ ljust "PATH" 30 ++ " " ++ ljust "LINE" 5
    ++ " " ++ ljust "STATUS" 10 ++ " " ++ "COMMENT"

/-- The separator line of 100 dash characters. -/
def separator : String := String.mk (List.replicate 100 '-')

/-- The raw body of the first comment of a thread: the value of
comments, then nodes, then element 0, then body, which must be a
string; none models the fatal exception raised at whichever step
fails. -/
def pyRawBody (t : Json) : Option String :=
  (pyIndexStr t "comments").bind fun comments =>
  (pyIndexStr comments "nodes").bind fun nodes =>
  (pyIndexNat nodes 0).bind fun first =>
  (pyIndexStr first "body").bind asStr

/-- Processing of one thread record inside the loop, in the evaluation
order of the source: none is a fatal exception, some none a silent
skip, some (some r) an emitted row r.  The skip condition
short-circuits exactly as the Python or does: isResolved is only read
when isOutdated is falsy. -/
def processThread (t : Json) : Option (Option String) :=
  match pyIndexStr t "isOutdated" with
  | none => none
  | some od =>
    if truthy od then some none
    else
      match pyIndexStr t "isResolved" with
      | none => none
      | some rs =>
        if truthy rs then some none
        else
          match pyIndexStr t "id" with
          | none => none
          | some tid =>
            match pyIndexStr t "path" with
            | none => none
            | some path =>
              match pyIndexStr t "line" with
              | none => none
              | some line =>
                match pyRawBody t with
                | none => none
                | some s =>
                  match pyFormat tid 20 with
                  | none => none
                  | some a =>
                    match pyFormat path 30 with
                    | none => none
                    | some b =>
                      match pyFormat line 5 with
                      | none => none
                      | some c => some (some (mkRow a b c (pyComment s)))

/-- The loop over the thread records: returns the rows printed in
order, and whether the loop ran to completion (false when a thread
raised, in which case the rows already printed are kept). -/
def runThreads : List Json → List String × Bool
  | [] => ([], true)
  | t :: ts =>
    match processThread t with
    | none => ([], false)
    | some none => runThreads ts
    | some (some r) =>
      let rest := runThreads ts
      (r :: rest.1, rest.2)

/-- Navigation step 1: data.get with an empty-dict default. -/
def navData (doc : Json) : Option Json := pyGet doc "data" (Json.obj [])

/-- Navigation step 2: .get of repository. -/
def navRepo (doc : Json) : Option Json :=
  (navData doc).bind fun a => pyGet a "repository" (Json.obj [])

/-- Navigation step 3: .get of pullRequest. -/
def navPull (doc : Json) : Option Json :=
  (navRepo doc).bind fun b => pyGet b "pullRequest" (Json.obj [])

/-- Navigation step 4: .get of reviewThreads. -/
def navThreads (doc : Json) : Option Json :=
  (navPull doc).bind fun c => pyGet c "reviewThreads" (Json.obj [])

/-- The full navigation of line 18 of the script: the chained .get
calls with empty-container defaults, ending with nodes defaulting to an
empty list. -/
def navigate (doc : Json) : Option Json :=
  (navThreads doc).bind fun d => pyGet d "nodes" (Json.arr [])

/-- The observable outcome of a run: normal completion with the stdout
lines (exit 0), an explicit error exit (stdout lines so far plus one
diagnostic-stream message, exit 1), or an unhandled exception after
printing some stdout lines (exit 1, traceback text not modelled). -/
inductive RunResult where
  | ok : List String → RunResult
  | errExit : List String → String → RunResult
  | fatal : List String → RunResult

/-- The process exit status of an outcome. -/
def exitCode : RunResult → Nat
  | RunResult.ok _ => 0
  | RunResult.errExit _ _ => 1
  | RunResult.fatal _ => 1

/-- The lines written to standard output in an outcome. -/
def stdoutOf : RunResult → List String
  | RunResult.ok out => out
  | RunResult.errExit out _ => out
  | RunResult.fatal out => out

/-- The inventory function of the script.  The file system is modelled
as a map from paths to the already-decoded JSON document (none when no
file exists at the path; malformed JSON is outside the claims).  The
header and separator are printed after navigation succeeds and before
the loop starts, matching the line order of the source. -/
def inventory (fs : String → Option Json) (file_path : String) : RunResult :=
  match fs file_path with
  | none => RunResult.errExit [] ("Error: " ++ file_path ++ " not found")
  | some doc =>
    match navigate doc with
    | none => RunResult.fatal []
    | some nodes =>
      match pyIter nodes with
      | none => RunResult.fatal [header, separator]
      | some ts =>
        let res := runThreads ts
        if res.2 then RunResult.ok ([header, separator] ++ res.1)
        else RunResult.fatal ([header, separator] ++ res.1)

/-- The usage message printed when the file argument is missing. -/
def usageMsg : String := "Usage: uv run pr.py <threads.json>"

/-- The entry point: argv includes the program name; with fewer than
two entries the script prints the usage message and exits 1 without
touching the file system, otherwise it runs inventory on argv[1]. -/
def progMain (argv : List String) (fs : String → Option Json) : RunResult :=
  match argv with
  | _ :: p :: _ => inventory fs p
  | _ => RunResult.errExit [] usageMsg

/-! Helper lemmas shared by the claim theorems. -/

theorem pyGet_obj (fs : List (String × Json)) (k : String) (d : Json) :
    pyGet (Json.obj fs) k d = some ((fs.lookup k).getD d) := rfl

theorem pyGet_none_of_not_obj (v : Json) (k : String) (d : Json)
    (h : isObj v = false) : pyGet v k d = none := by
  cases v <;> first | rfl | simp [isObj] at h

theorem pyComment_length (s : String) : (pyComment s).length ≤ 50 := by
  simp only [pyComment, pyTake, replaceNl, String.length]
  exact List.length_take_le _ _

theorem replChar_ne_newline (c : Char) : replChar c ≠ '\n' := by
  unfold replChar
  split
  · decide
  · assumption

theorem pyComment_no_newline (s : String) :
    ∀ ch ∈ (pyComment s).data, ch ≠ '\n' := by
  intro ch hch
  simp only [pyComment, pyTake, replaceNl] at hch
  have hmem : ch ∈ (s.data.map replChar) := List.mem_of_mem_take hch
  rcases List.mem_map.mp hmem with ⟨c, _, rfl⟩
  exact replChar_ne_newline c

theorem runThreads_eq_filterMap (ts : List Json)
    (h : ∀ t ∈ ts, processThread t ≠ none) :
    runThreads ts = (ts.filterMap (fun t => (processThread t).join), true) := by
  induction ts with
  | nil => rfl
  | cons t ts ih =>
    have ht := h t (by simp)
    have hts : ∀ u ∈ ts, processThread u ≠ none := fun u hu => h u (by simp [hu])
    cases hp : processThread t with
    | none => exact absurd hp ht
    | some o =>
      cases o with
      | none => simp [runThreads, hp, ih hts, Option.join]
      | some r => simp [runThreads, hp, ih hts, Option.join]

/-! Claim theorems. -/

/-- Claim C1: every thread record whose isResolved field is true or whose
isOutdated field is true produces no table row, regardless of the values
of its other fields, and processing continues with the next thread.  The
hypothesis requires the isOutdated field to be present when the skip is
driven by isResolved, because the source reads isOutdated first. -/
theorem c1_skip_resolved_or_outdated (t : Json) (ts : List Json)
    (h : pyIndexStr t "isOutdated" = some (Json.bool true) ∨
         (∃ od, pyIndexStr t "isOutdated" = some od ∧
            pyIndexStr t "isResolved" = some (Json.bool true))) :
    processThread t = some none ∧ runThreads (t :: ts) = runThreads ts := by
  have hp : processThread t = some none := by
    rcases h with h | ⟨od, h1, h2⟩
    · unfold processThread
      rw [h]
      simp [truthy]
    · unfold processThread
      rw [h1]
      by_cases hod : truthy od
      · simp [hod]
      · simp [hod, h2, truthy]
  exact ⟨hp, by simp [runThreads, hp]⟩

/-- Claim C1 witness: a concrete resolved thread is skipped and the loop
continues. -/
theorem c1_witness :
    processThread (Json.obj [("isOutdated", Json.bool false),
      ("isResolved", Json.bool true)]) = some none ∧
    runThreads [Json.obj [("isOutdated", Json.bool false),
      ("isResolved", Json.bool true)]] = runThreads [] :=
  c1_skip_resolved_or_outdated _ []
    (Or.inr ⟨Json.bool false, rfl, rfl⟩)

/-- Claim C2: on the concrete two-thread document of the spec, the
program prints exactly the header, the separator, and one row for T1
with status OPEN and comment text with the newline replaced by a space;
no row for the outdated thread T2. -/
theorem c2_concrete_scenario :
    inventory (fun _ => some (Json.obj [("data", Json.obj [("repository",
      Json.obj [("pullRequest", Json.obj [("reviewThreads", Json.obj
      [("nodes", Json.arr [
        Json.obj [("id", Json.str "T1"), ("path", Json.str "a.py"),
          ("line", Json.num 10), ("isOutdated", Json.bool false),
          ("isResolved", Json.bool false),
          ("comments", Json.obj [("nodes",
            Json.arr [Json.obj [("body", Json.str "line one\nline two")]])])],
        Json.obj [("id", Json.str "T2"), ("path", Json.str "b.py"),
          ("line", Json.num 5), ("isOutdated", Json.bool true),
          ("isResolved", Json.bool false),
          ("comments", Json.obj [("nodes",
            Json.arr [Json.obj [("body", Json.str "ignored")]])])]
      ])])])])])])) "threads.json"
    = RunResult.ok [header, separator,
        "T1                   a.py                           10    OPEN       line one line two"] := by
  rfl

/-- Claim C3: when any of the nested keys data, repository, pullRequest,
reviewThreads or nodes is absent from the mapping reached at its level,
navigation substitutes an empty container there, so the program prints
exactly the header and the 100-dash separator and exits with status 0. -/
theorem c3_absent_keys_default (doc : Json) (fs0 : String → Option Json)
    (p : String) (hfs : fs0 p = some doc)
    (h : (∃ o, doc = Json.obj o ∧ o.lookup "data" = none) ∨
         (∃ o, navData doc = some (Json.obj o) ∧ o.lookup "repository" = none) ∨
         (∃ o, navRepo doc = some (Json.obj o) ∧ o.lookup "pullRequest" = none) ∨
         (∃ o, navPull doc = some (Json.obj o) ∧ o.lookup "reviewThreads" = none) ∨
         (∃ o, navThreads doc = some (Json.obj o) ∧ o.lookup "nodes" = none)) :
    navigate doc = some (Json.arr []) ∧
    inventory fs0 p = RunResult.ok [header, separator] ∧
    exitCode (inventory fs0 p) = 0 := by
  have hnav : navigate doc = some (Json.arr []) := by
    rcases h with ⟨o, rfl, h2⟩ | ⟨o, h1, h2⟩ | ⟨o, h1, h2⟩ | ⟨o, h1, h2⟩ | ⟨o, h1, h2⟩
    · simp [navigate, navThreads, navPull, navRepo, navData, pyGet, h2]
    · simp [navigate, navThreads, navPull, navRepo, h1, pyGet, h2]
    · simp [navigate, navThreads, navPull, h1, pyGet, h2]
    · simp [navigate, navThreads, h1, pyGet, h2]
    · simp [navigate, h1, pyGet, h2]
  have hinv : inventory fs0 p = RunResult.ok [header, separator] := by
    simp [inventory, hfs, hnav, pyIter, runThreads]
  exact ⟨hnav, hinv, by rw [hinv]; rfl⟩

/-- Claim C3 witness: a document that is an empty object prints only the
header and separator and exits 0. -/
theorem c3_witness :
    navigate (Json.obj []) = some (Json.arr []) ∧
    inventory (fun _ => some (Json.obj [])) "x.json"
      = RunResult.ok [header, separator] ∧
    exitCode (inventory (fun _ => some (Json.obj [])) "x.json") = 0 :=
  c3_absent_keys_default (Json.obj []) _ "x.json" rfl (Or.inl ⟨[], rfl, rfl⟩)

/-- Claim C4: in every printed row the COMMENT field is the body of the
first comment of the thread with newlines replaced by single spaces and
then truncated to at most 50 characters, with no truncation marker; it
therefore has length at most 50 and contains no newline character. -/
theorem c4_comment_field (t : Json) (r : String)
    (h : processThread t = some (some r)) :
    ∃ s a b c, pyRawBody t = some s ∧ r = mkRow a b c (pyComment s) ∧
      (pyComment s).length ≤ 50 ∧ ∀ ch ∈ (pyComment s).data, ch ≠ '\n' := by
  unfold processThread at h
  repeat' split at h
  all_goals simp only [Option.some.injEq, reduceCtorEq] at h
  rename_i x3 s hs x2 a ha x1 b hb x0 c hc
  exact ⟨s, a, b, c, hs, h.symm, pyComment_length s, pyComment_no_newline s⟩

/-- Claim C4 witness: a concrete thread with a long multi-line comment
body yields a row whose comment part is the transformed body. -/
theorem c4_witness :
    ∃ s a b c,
      pyRawBody (Json.obj [("isOutdated", Json.bool false),
        ("isResolved", Json.bool false), ("id", Json.str "T9"),
        ("path", Json.str "f.py"), ("line", Json.num 7),
        ("comments", Json.obj [("nodes", Json.arr [Json.obj [("body",
          Json.str "alpha\nbeta\ngamma delta epsilon zeta eta theta iota kappa")]])])])
        = some s ∧
      "T9                   f.py                           7     OPEN       alpha beta gamma delta epsilon zeta eta theta iota"
        = mkRow a b c (pyComment s) ∧
      (pyComment s).length ≤ 50 ∧ ∀ ch ∈ (pyComment s).data, ch ≠ '\n' :=
  c4_comment_field _ _ (by rfl)

/-- Claim C5: for a path with no existing file, the program writes the
message Error: path not found to the diagnostic stream, exits with
status 1, and writes nothing to standard output. -/
theorem c5_missing_file (fs0 : String → Option Json) (p : String)
    (h : fs0 p = none) :
    inventory fs0 p = RunResult.errExit [] ("Error: " ++ p ++ " not found") ∧
    exitCode (inventory fs0 p) = 1 ∧ stdoutOf (inventory fs0 p) = [] := by
  have hi : inventory fs0 p
      = RunResult.errExit [] ("Error: " ++ p ++ " not found") := by
    unfold inventory
    rw [h]
  exact ⟨hi, by rw [hi]; rfl, by rw [hi]; rfl⟩

/-- Claim C5 witness: a concrete empty file system. -/
theorem c5_witness :
    inventory (fun _ => none) "threads.json"
      = RunResult.errExit [] ("Error: " ++ "threads.json" ++ " not found") ∧
    exitCode (inventory (fun _ => none) "threads.json") = 1 ∧
    stdoutOf (inventory (fun _ => none) "threads.json") = [] :=
  c5_missing_file (fun _ => none) "threads.json" rfl

/-- Claim C6: for a thread that is not skipped, a missing required field
among id, path, line, or the first comment body, including an empty
comments sequence, terminates the run fatally at that thread: no row is
printed for it and the loop does not continue. -/
theorem c6_missing_field_fatal (t : Json) (ts : List Json) (od rs : Json)
    (hod : pyIndexStr t "isOutdated" = some od) (hodf : truthy od = false)
    (hrs : pyIndexStr t "isResolved" = some rs) (hrsf : truthy rs = false)
    (h : pyIndexStr t "id" = none ∨ pyIndexStr t "path" = none ∨
         pyIndexStr t "line" = none ∨ pyRawBody t = none) :
    processThread t = none ∧ runThreads (t :: ts) = ([], false) := by
  have hp : processThread t = none := by
    rcases h with h | h | h | h <;>
      cases hid : pyIndexStr t "id" <;>
      cases hpath : pyIndexStr t "path" <;>
      cases hline : pyIndexStr t "line" <;>
      simp_all [processThread]
  exact ⟨hp, by simp [runThreads, hp]⟩

/-- Claim C6 witness: a concrete non-skipped thread whose comments
sequence is empty is fatal. -/
theorem c6_witness :
    processThread (Json.obj [("isOutdated", Json.bool false),
      ("isResolved", Json.bool false), ("id", Json.str "T3"),
      ("path", Json.str "c.py"), ("line", Json.num 2),
      ("comments", Json.obj [("nodes", Json.arr [])])]) = none ∧
    runThreads [Json.obj [("isOutdated", Json.bool false),
      ("isResolved", Json.bool false), ("id", Json.str "T3"),
      ("path", Json.str "c.py"), ("line", Json.num 2),
      ("comments", Json.obj [("nodes", Json.arr [])])]] = ([], false) :=
  c6_missing_field_fatal _ [] (Json.bool false) (Json.bool false)
    rfl rfl rfl rfl (Or.inr (Or.inr (Or.inr rfl)))

/-- Claim C7: when every thread of the document processes without a
fatal error, the printed rows after the header and separator are exactly
the rows of the non-skipped threads, one row each, in original input
order. -/
theorem c7_rows_in_input_order (doc : Json) (p : String) (ns : Json)
    (ts : List Json) (hnav : navigate doc = some ns)
    (hit : pyIter ns = some ts)
    (h : ∀ t ∈ ts, processThread t ≠ none) :
    inventory (fun _ => some doc) p =
      RunResult.ok (header :: separator ::
        ts.filterMap (fun t => (processThread t).join)) := by
  simp [inventory, hnav, hit, runThreads_eq_filterMap ts h]

/-- Claim C7 witness: a three-thread document with the middle thread
resolved prints the first and third rows in order. -/
theorem c7_witness :
    inventory (fun _ => some (Json.obj [("data", Json.obj [("repository",
      Json.obj [("pullRequest", Json.obj [("reviewThreads", Json.obj
      [("nodes", Json.arr [
        Json.obj [("id", Json.str "A"), ("path", Json.str "a.py"),
          ("line", Json.num 1), ("isOutdated", Json.bool false),
          ("isResolved", Json.bool false),
          ("comments", Json.obj [("nodes",
            Json.arr [Json.obj [("body", Json.str "first")]])])],
        Json.obj [("id", Json.str "B"), ("path", Json.str "b.py"),
          ("line", Json.num 2), ("isOutdated", Json.bool false),
          ("isResolved", Json.bool true),
          ("comments", Json.obj [("nodes",
            Json.arr [Json.obj [("body", Json.str "second")]])])],
        Json.obj [("id", Json.str "C"), ("path", Json.str "c.py"),
          ("line", Json.num 3), ("isOutdated", Json.bool false),
          ("isResolved", Json.bool false),
          ("comments", Json.obj [("nodes",
            Json.arr [Json.obj [("body", Json.str "third")]])])]
      ])])])])])])) "t.json"
    = RunResult.ok (header :: separator ::
        List.filterMap (fun t => (processThread t).join) [
        Json.obj [("id", Json.str "A"), ("path", Json.str "a.py"),
          ("line", Json.num 1), ("isOutdated", Json.bool false),
          ("isResolved", Json.bool false),
          ("comments", Json.obj [("nodes",
            Json.arr [Json.obj [("body", Json.str "first")]])])],
        Json.obj [("id", Json.str "B"), ("path", Json.str "b.py"),
          ("line", Json.num 2), ("isOutdated", Json.bool false),
          ("isResolved", Json.bool true),
          ("comments", Json.obj [("nodes",
            Json.arr [Json.obj [("body", Json.str "second")]])])],
        Json.obj [("id", Json.str "C"), ("path", Json.str "c.py"),
          ("line", Json.num 3), ("isOutdated", Json.bool false),
          ("isResolved", Json.bool false),
          ("comments", Json.obj [("nodes",
            Json.arr [Json.obj [("body", Json.str "third")]])])]]) :=
  c7_rows_in_input_order _ "t.json" _ _ rfl rfl (by decide)

/-- Claim C8: invoked with fewer than two argv entries (no file-path
argument), the program writes the usage message to the diagnostic
stream and exits with status 1, independently of the file system and
with nothing written to standard output. -/
theorem c8_usage_error (argv : List String) (fs0 : String → Option Json)
    (h : argv.length < 2) :
    progMain argv fs0 = RunResult.errExit [] usageMsg ∧
    exitCode (progMain argv fs0) = 1 ∧ stdoutOf (progMain argv fs0) = [] := by
  match argv with
  | [] => exact ⟨rfl, rfl, rfl⟩
  | [a] => exact ⟨rfl, rfl, rfl⟩
  | a :: b :: rest => simp at h; omega

/-- Claim C8 witness: a one-entry argv (just the program name). -/
theorem c8_witness :
    progMain ["pr.py"] (fun _ => some (Json.obj []))
      = RunResult.errExit [] usageMsg ∧
    exitCode (progMain ["pr.py"] (fun _ => some (Json.obj []))) = 1 ∧
    stdoutOf (progMain ["pr.py"] (fun _ => some (Json.obj []))) = [] :=
  c8_usage_error ["pr.py"] _ (by decide)

/-- Claim C9 counterexample: a thread with isOutdated present and true
but isResolved absent is skipped silently, not terminated fatally; the
or-condition of the source short-circuits, so the claim that both flags
are always required is false at this input. -/
theorem c9_counterexample :
    pyIndexStr (Json.obj [("isOutdated", Json.bool true)]) "isResolved"
      = none ∧
    processThread (Json.obj [("isOutdated", Json.bool true)]) = some none ∧
    processThread (Json.obj [("isOutdated", Json.bool true)]) ≠ none :=
  ⟨rfl, rfl, by decide⟩

/-- Claim C9 amended: isOutdated is required for every thread reached by
the loop, and its absence is fatal; isResolved is required only when
isOutdated is falsy, in which case its absence is fatal; when isOutdated
is truthy the thread is skipped without reading isResolved at all. -/
theorem c9_flag_requirements (t : Json) :
    (pyIndexStr t "isOutdated" = none → processThread t = none) ∧
    (∀ od, pyIndexStr t "isOutdated" = some od → truthy od = false →
      pyIndexStr t "isResolved" = none → processThread t = none) ∧
    (∀ od, pyIndexStr t "isOutdated" = some od → truthy od = true →
      processThread t = some none) := by
  refine ⟨?_, ?_, ?_⟩
  · intro h
    unfold processThread
    rw [h]
  · intro od h1 h2 h3
    unfold processThread
    rw [h1]
    simp [h2, h3]
  · intro od h1 h2
    unfold processThread
    rw [h1]
    simp [h2]

/-- Claim C9 witness: concrete threads for each of the three cases of
the amended claim. -/
theorem c9_witness :
    processThread (Json.obj [("isResolved", Json.bool true)]) = none ∧
    processThread (Json.obj [("isOutdated", Json.bool false)]) = none ∧
    processThread (Json.obj [("isOutdated", Json.num 3)]) = some none :=
  ⟨(c9_flag_requirements _).1 rfl,
   (c9_flag_requirements _).2.1 (Json.bool false) rfl rfl rfl,
   (c9_flag_requirements _).2.2 (Json.num 3) rfl rfl⟩

/-- Claim C10: the empty-container default applies only to absent keys:
an intermediate key among data, repository, pullRequest or
reviewThreads that is present but bound to a non-mapping value makes
the chained .get call on that value raise, so the run terminates
fatally with nothing printed, before the header. -/
theorem c10_non_mapping_fatal (doc : Json) (p : String)
    (h : (∃ o w, doc = Json.obj o ∧ o.lookup "data" = some w ∧
            isObj w = false) ∨
         (∃ o w, navData doc = some (Json.obj o) ∧
            o.lookup "repository" = some w ∧ isObj w = false) ∨
         (∃ o w, navRepo doc = some (Json.obj o) ∧
            o.lookup "pullRequest" = some w ∧ isObj w = false) ∨
         (∃ o w, navPull doc = some (Json.obj o) ∧
            o.lookup "reviewThreads" = some w ∧ isObj w = false)) :
    navigate doc = none ∧
    inventory (fun _ => some doc) p = RunResult.fatal [] ∧
    stdoutOf (inventory (fun _ => some doc) p) = [] := by
  have hnav : navigate doc = none := by
    rcases h with ⟨o, w, rfl, h2, h3⟩ | ⟨o, w, h1, h2, h3⟩ |
      ⟨o, w, h1, h2, h3⟩ | ⟨o, w, h1, h2, h3⟩
    · have hd : navData (Json.obj o) = some w := by
        simp [navData, pyGet, h2]
      have hr : navRepo (Json.obj o) = none := by
        simp [navRepo, hd, pyGet_none_of_not_obj w _ _ h3]
      have hpl : navPull (Json.obj o) = none := by
        simp [navPull, hr]
      have ht : navThreads (Json.obj o) = none := by
        simp [navThreads, hpl]
      simp [navigate, ht]
    · have hr : navRepo doc = some w := by
        simp [navRepo, h1, pyGet, h2]
      have hpl : navPull doc = none := by
        simp [navPull, hr, pyGet_none_of_not_obj w _ _ h3]
      have ht : navThreads doc = none := by
        simp [navThreads, hpl]
      simp [navigate, ht]
    · have hpl : navPull doc = some w := by
        simp [navPull, h1, pyGet, h2]
      have ht : navThreads doc = none := by
        simp [navThreads, hpl, pyGet_none_of_not_obj w _ _ h3]
      simp [navigate, ht]
    · have ht : navThreads doc = some w := by
        simp [navThreads, h1, pyGet, h2]
      simp [navigate, ht, pyGet_none_of_not_obj w _ _ h3]
  have hinv : inventory (fun _ => some doc) p = RunResult.fatal [] := by
    simp [inventory, hnav]
  exact ⟨hnav, hinv, by rw [hinv]; rfl⟩

/-- Claim C10 witness: a document whose data key is bound to null is
fatal with empty standard output. -/
theorem c10_witness :
    navigate (Json.obj [("data", Json.null)]) = none ∧
    inventory (fun _ => some (Json.obj [("data", Json.null)])) "y.json"
      = RunResult.fatal [] ∧
    stdoutOf (inventory (fun _ => some (Json.obj [("data", Json.null)]))
      "y.json") = [] :=
  c10_non_mapping_fatal _ "y.json"
    (Or.inl ⟨[("data", Json.null)], Json.null, rfl, rfl, rfl⟩)

end PrPy
